import Mathlib

/-!
Verification development for the chunked file-upload pipeline of
`src/source/uploader.ts` (class `Uploader`).

The definitions below are a shallow embedding of the TypeScript source:
pure fragments become Lean functions, the stateful multi-part scheduler
becomes an explicit state machine driven by a list of external events
(connection completions, back-off timers, abort signals).  Machine
integers are modelled as `Nat`; JavaScript `Math.round` / `Math.ceil`
are modelled explicitly.
-/

namespace Uploader

/-- JavaScript `Math.round (num / den)` for non-negative rationals:
round half away from zero, i.e. `⌊num/den + 1/2⌋`. -/
def jsRound (num den : Nat) : Nat := (2 * num + den) / (2 * den)

/-- JavaScript `Math.ceil (a / b)` for natural `a`, positive `b`. -/
def jsCeilDiv (a b : Nat) : Nat := (a + b - 1) / b

/-- JavaScript `a || b` on strings (`""` is falsy), used by
`this.componentId = this.data.id || uuidV4()` (uploader.ts line 107). -/
def jsOrString : Option String → String → String
  | some s, b => if s = "" then b else s
  | none, b => b

/-- `eTag.replaceAll(String.fromCharCode 34, "")` — removes every double
quote character from the fingerprint header (uploader.ts line 369). -/
def stripQuotes (s : String) : String :=
  ⟨s.data.filter (fun c => c ≠ Char.ofNat 34)⟩

/-! ### Strategy selector (uploader.ts lines 109-120)

The constructor computes `chunkSize = getChunkSize(fileSize)` from a
size-tiered policy (the policy itself lives in
`util/get_chunk_size.js`, outside the embedded sources, so the chunk
size is a parameter here), then
`numParts = Math.ceil(fileSize / chunkSize)`, collapses to single-part
(`numParts = null`) when `numParts <= 2`, and a caller-supplied legacy
`options.xhr` forces single-part regardless of size after logging a
deprecation warning. -/

structure UploadPlan where
  /-- `this.numParts`: `some n` for multi-part, `none` for single-part. -/
  numParts : Option Nat
  /-- whether the `options.xhr` deprecation warning was logged. -/
  warned : Bool
  deriving DecidableEq

def makePlan (fileSize chunkSize : Nat) (hasLegacyXhr : Bool) : UploadPlan :=
  let n := jsCeilDiv fileSize chunkSize
  let np : Option Nat := if n ≤ 2 then none else some n
  { numParts := if hasLegacyXhr then none else np
    warned := hasLegacyXhr }

/-! ### Progress aggregator (uploader.ts lines 293-321, `handleChunkProgress`)

`progressCache` is a JS record keyed by the 0-based part index holding
the bytes loaded so far for that in-flight part; `uploadedSize`
accumulates committed bytes.  The handler stores `event.loaded` on
`progress` / `error` / `abort` events, moves cached bytes into
`uploadedSize` on an `uploaded` event (note: the listeners registered in
`uploadFileChunk` fire `progress`, `error`, `abort` and `loadend`
events), then reports
`Math.round(min(uploadedSize + Σ cache, fileSize) / fileSize * 100)`. -/

inductive ChunkEventType where
  | progress
  | error
  | abort
  | loadend
  | uploaded
  deriving DecidableEq

structure ProgressState where
  progressCache : List (Nat × Nat)
  uploadedSize : Nat
  deriving DecidableEq

/-- Record assignment `cache[k] = v`. -/
def setCache (k v : Nat) : List (Nat × Nat) → List (Nat × Nat)
  | [] => [(k, v)]
  | p :: ps => if p.1 = k then (k, v) :: ps else p :: setCache k v ps

/-- Record deletion `delete cache[k]`. -/
def delCache (k : Nat) : List (Nat × Nat) → List (Nat × Nat) :=
  List.filter (fun p => p.1 != k)

/-- `Object.keys(cache).reduce((memo, id) => memo += cache[id], 0)`. -/
def cacheSum (l : List (Nat × Nat)) : Nat :=
  l.foldr (fun p acc => p.2 + acc) 0

/-- Shallow embedding of `Uploader.handleChunkProgress`; returns the
updated state together with the percentage passed to `onProgress`. -/
def handleChunkProgress (fileSize partKey : Nat) (ty : ChunkEventType)
    (loaded : Nat) (st : ProgressState) : ProgressState × Nat :=
  let st1 :=
    if ty = .progress ∨ ty = .error ∨ ty = .abort then
      { st with progressCache := setCache partKey loaded st.progressCache }
    else st
  let st2 :=
    if ty = .uploaded then
      { st1 with
        uploadedSize :=
          st1.uploadedSize + ((st1.progressCache.lookup partKey).getD 0)
        progressCache := delCache partKey st1.progressCache }
    else st1
  let inProgress := cacheSum st2.progressCache
  let sent := min (st2.uploadedSize + inProgress) fileSize
  (st2, jsRound (sent * 100) fileSize)

/-! ### Per-part executor (uploader.ts lines 323-398, `uploadFileChunk`)

The promise returned by `uploadFileChunk` resolves only inside the
`readyState === 4 && status === 200` handler, and there only when the
`ETag` response header is present (in which case the unquoted tag is
pushed onto `uploadedParts` and the connection deregistered before the
resolve).  It rejects on the network-level `onerror`, `ontimeout` and
`onabort` handlers, each of which deregisters the connection first.
No handler fires for a cleanly delivered HTTP response with status ≠ 200
or with a missing `ETag` header, so in those cases the promise never
settles and the connection stays registered. -/

/-- The externally observable fate of one network attempt. -/
inductive ChunkNet where
  /-- the HTTP response was delivered cleanly with this status and
  optional `ETag` header. -/
  | response (status : Nat) (eTag : Option String)
  /-- network-level error (`xhr.onerror`). -/
  | netError
  /-- per-connection timeout (`xhr.ontimeout`). -/
  | timeout
  /-- the connection was aborted (`xhr.onabort`). -/
  | abortedConn
  deriving DecidableEq

inductive AttemptResult where
  /-- the promise resolved with this HTTP status after recording the
  unquoted fingerprint as a PartResult. -/
  | resolved (status : Nat) (recordedETag : String)
  /-- the promise rejected with this error message. -/
  | rejected (msg : String)
  /-- no handler settled the promise: the attempt hangs forever. -/
  | unsettled
  deriving DecidableEq

/-- Settlement of the `uploadFileChunk` promise, paired with whether the
entry in `activeConnections` was deleted. -/
def uploadFileChunkOutcome : ChunkNet → AttemptResult × Bool
  | .response 200 (some tag) => (.resolved 200 (stripQuotes tag), true)
  | .response _ _ => (.unsettled, false)
  | .netError => (.rejected "Upload chunk error", true)
  | .timeout => (.rejected "Upload chunk timeout timeout", true)
  | .abortedConn => (.rejected "Upload canceled by user or system", true)

inductive ChunkSettle where
  | success (recordedETag : String)
  | failure (msg : String)
  | unsettled
  deriving DecidableEq

/-- `Uploader.uploadChunk` (lines 272-291): passes resolutions through a
`status !== 200` check and re-signals rejections. -/
def uploadChunkResult (n : ChunkNet) : ChunkSettle :=
  match (uploadFileChunkOutcome n).1 with
  | .resolved status tag =>
      if status = 200 then .success tag else .failure "Failed chunk upload"
  | .rejected msg => .failure msg
  | .unsettled => .unsettled

/-- The synchronous prefix of `uploadFileChunk` (lines 339-347 and
344-395): the offline check rejects the promise when
`window.navigator.onLine` is false, but lacking an early return the
function still registers a fresh `XMLHttpRequest` under
`activeConnections`, invokes `onUploadChunkStart` (re-entering the drive
step) and sends the request. -/
structure ChunkStart where
  /-- rejection raised synchronously before the connection was opened. -/
  earlyReject : Option String
  /-- the connection was stored in `activeConnections`. -/
  registered : Bool
  /-- `onUploadChunkStart` (the re-entrant drive step) was invoked. -/
  driveReentered : Bool
  /-- `xhr.send(file)` was reached. -/
  sent : Bool
  deriving DecidableEq

def uploadFileChunkStart (onLine : Bool) : ChunkStart :=
  { earlyReject := if onLine then none else some "System is offline"
    registered := true
    driveReentered := true
    sent := true }

/-! ### Retry/back-off governor (uploader.ts lines 238-268)

`uploadNextChunk`'s `.catch` handler for one dispatched part: on the
failure of an attempt, with the closure variable `retry` (0 on first
dispatch), if `retry <= 6` it increments `retry`, schedules
`wait(2 ** retry * 100)`, re-enqueues the same part descriptor and
resumes the drive step with the incremented counter; otherwise it calls
`abort()`, then `cleanup().then(handleError, handleError)` so the error
callback fires whether or not the cleanup delete succeeds.  A successful
attempt pushes exactly one PartResult (inside `uploadFileChunk`) and
resumes the drive step. -/

structure PartTrace where
  /-- back-off delays scheduled, in milliseconds, in order. -/
  delays : List Nat
  /-- PartResults recorded for this part. -/
  commits : Nat
  /-- times the part descriptor was re-enqueued into the backlog. -/
  enqueues : Nat
  /-- times the drive step (`uploadNextChunk`) was resumed. -/
  drives : Nat
  /-- cleanup deletes issued by the fatal branch. -/
  fatalCleanups : Nat
  /-- error-callback invocations issued by the fatal branch. -/
  fatalErrors : Nat
  deriving DecidableEq

/-- Runs the retry loop of one part against the finite oracle
`attempts`, whose `i`-th entry tells whether the `i`-th attempt
succeeds; `r` is the current value of the `retry` closure variable.
An exhausted oracle leaves the part pending with no further effects. -/
def governPart : List Bool → Nat → PartTrace
  | [], _ => ⟨[], 0, 0, 0, 0, 0⟩
  | true :: _, _ => ⟨[], 1, 0, 1, 0, 0⟩
  | false :: rest, r =>
      if r ≤ 6 then
        let t := governPart rest (r + 1)
        ⟨2 ^ (r + 1) * 100 :: t.delays, t.commits, t.enqueues + 1,
          t.drives + 1, t.fatalCleanups, t.fatalErrors⟩
      else ⟨[], 0, 0, 0, 1, 1⟩

/-! ### Multi-part session machine (uploader.ts lines 140-154, 214-270,
272-291, 362-379, 391-393, 453-509)

The multi-part scheduler is embedded as a deterministic state machine
driven by a list of external events.  State components mirror the
mutable fields of `Uploader`; parts are identified by their
`part_number`.  `this.parts` pops from the end of the array, so the
backlog is kept in pop order (head = next part to pop);
`this.activeConnections` is a record keyed by `part_number - 1`, kept
here as an association list from `part_number` to the `retry` value
captured by the catch closure of the dispatch.  `timers` holds the
pending `wait(...)` callbacks of the retry branch as pairs of the part
number and the `retry` argument that the callback will pass to
`uploadNextChunk`.  In the multi-part path the source never invokes
`onAborted` and never raises `UPLOAD_ABORTED` (both appear only in
`uploadFile`, the single-part path), so `onAbortedCalls` has no
incrementing transition. -/

def maxConcurrentConnections : Nat := 6

structure MPState where
  /-- `this.parts`, head = next element `pop()` returns. -/
  backlog : List Nat
  /-- `this.activeConnections`: part number and the catch-closure retry. -/
  inflight : List (Nat × Nat)
  /-- pending back-off timers: part number and redispatch retry value. -/
  timers : List (Nat × Nat)
  /-- part numbers of recorded PartResults (`this.uploadedParts`). -/
  uploadedParts : List Nat
  /-- manifests submitted by `complete_multipart_upload` operations. -/
  commits : List (List Nat)
  onCompleteCalls : Nat
  onAbortedCalls : Nat
  /-- `session.delete("FileComponent", [componentId])` invocations. -/
  cleanupCalls : Nat
  onErrorCalls : Nat
  /-- `this.componentId`, fixed in the constructor. -/
  componentId : String
  deriving DecidableEq

/-- Insertion into a list sorted ascending. -/
def insertPart (x : Nat) : List Nat → List Nat
  | [] => [x]
  | y :: ys => if x ≤ y then x :: y :: ys else y :: insertPart x ys

/-- `uploadedParts.sort((a, b) => a.part_number - b.part_number)`. -/
def sortParts (l : List Nat) : List Nat := l.foldr insertPart []

/-- Record deletion from `activeConnections` (or from the timer list). -/
def removeConnection (pn : Nat) (l : List (Nat × Nat)) : List (Nat × Nat) :=
  l.filter (fun p => p.1 != pn)

/-- `Uploader.completeUpload` (lines 453-497): when `uploadedParts` is
non-empty, sorts it ascending by part number and submits it as the
manifest of a `complete_multipart_upload` operation (batched with the
`ComponentLocation` create); afterwards `onComplete(componentId)` is
invoked.  Nothing marks the session finished. -/
def completeUpload (st : MPState) : MPState :=
  { st with
    commits :=
      if st.uploadedParts.isEmpty then st.commits
      else st.commits ++ [sortParts st.uploadedParts]
    onCompleteCalls := st.onCompleteCalls + 1 }

/-- `Uploader.uploadNextChunk` (lines 214-270), synchronous part: under
the concurrency guard, pop a part, register its connection (record
assignment: any stale entry under the same key is overwritten), and
re-enter via `onUploadChunkStart` with `retry = 0`; with an empty
backlog, call `completeUpload` exactly when no connection is active.
The structural `fuel` argument bounds the recursion; every entry point
passes the backlog length, and each recursive step pops one element, so
the fuel never runs out before the backlog does. -/
def uploadNextChunkF : Nat → Nat → MPState → MPState
  | 0, _, st =>
    if maxConcurrentConnections ≤ st.inflight.length then st
    else if st.inflight.isEmpty then completeUpload st else st
  | fuelTail + 1, r, st =>
    if maxConcurrentConnections ≤ st.inflight.length then st
    else
      match st.backlog with
      | [] => if st.inflight.isEmpty then completeUpload st else st
      | pn :: rest =>
          uploadNextChunkF fuelTail 0
            { st with
              backlog := rest
              inflight := (pn, r) :: removeConnection pn st.inflight }

def uploadNextChunk (r : Nat) (st : MPState) : MPState :=
  uploadNextChunkF st.backlog.length r st

/-- `Uploader.abort` sweep over a snapshot of `activeConnections`
(lines 504-508): each aborted connection rejects its promise, whose
catch handler (lines 242-268) either schedules a back-off retry
(`retry ≤ 6`) or runs its own fatal branch (cleanup plus error
callback; the nested `abort()` finds no connections left). -/
def settleAborted (st : MPState) (conns : List (Nat × Nat)) : MPState :=
  conns.foldl
    (fun s pr =>
      if pr.2 ≤ 6 then { s with timers := s.timers ++ [(pr.1, pr.2 + 1)] }
      else
        { s with
          cleanupCalls := s.cleanupCalls + 1
          onErrorCalls := s.onErrorCalls + 1 })
    st

inductive MPEvent where
  /-- the connection of this part delivered status 200 with an `ETag`. -/
  | chunkSucceeded (pn : Nat)
  /-- the connection of this part failed (network error / timeout);
  `cleanupOk` tells whether a cleanup delete issued by the fatal branch
  would succeed — the source runs `cleanup().then(handleError,
  handleError)`, so the error callback fires either way. -/
  | chunkFailed (pn : Nat) (cleanupOk : Bool)
  /-- the back-off timer of this part fired. -/
  | timerFired (pn : Nat)
  /-- `abort()` was invoked (explicitly or by the abort-signal
  listener installed in the constructor, lines 133-137). -/
  | abortSignal
  deriving DecidableEq

def stepEvent (e : MPEvent) (st : MPState) : MPState :=
  match e with
  | .chunkSucceeded pn =>
      match st.inflight.lookup pn with
      | none => st
      | some _ =>
          uploadNextChunk 0
            { st with
              uploadedParts := st.uploadedParts ++ [pn]
              inflight := removeConnection pn st.inflight }
  | .chunkFailed pn _cleanupOk =>
      match st.inflight.lookup pn with
      | none => st
      | some r =>
          let st1 := { st with inflight := removeConnection pn st.inflight }
          if r ≤ 6 then
            { st1 with timers := st1.timers ++ [(pn, r + 1)] }
          else
            let sibs := st1.inflight
            let st2 := settleAborted { st1 with inflight := [] } sibs
            { st2 with
              cleanupCalls := st2.cleanupCalls + 1
              onErrorCalls := st2.onErrorCalls + 1 }
  | .timerFired pn =>
      match st.timers.lookup pn with
      | none => st
      | some r =>
          uploadNextChunk r
            { st with
              timers := removeConnection pn st.timers
              backlog := pn :: st.backlog }
  | .abortSignal =>
      settleAborted { st with inflight := [] } st.inflight

/-- Session state right after `start()` received multi-part metadata:
`this.parts = urls` (given here in array order, popped from the end)
and all counters zero. -/
def initMPState (componentId : String) (urls : List Nat) : MPState :=
  { backlog := urls.reverse
    inflight := []
    timers := []
    uploadedParts := []
    commits := []
    onCompleteCalls := 0
    onAbortedCalls := 0
    cleanupCalls := 0
    onErrorCalls := 0
    componentId := componentId }

/-- `start()` for a multi-part session: store the metadata and run the
first drive step. -/
def startSession (componentId : String) (urls : List Nat) : MPState :=
  uploadNextChunk 0 (initMPState componentId urls)

/-- A whole session: the initial drive step followed by the externally
scheduled events. -/
def runSession (componentId : String) (urls : List Nat)
    (events : List MPEvent) : MPState :=
  events.foldl (fun s e => stepEvent e s) (startSession componentId urls)

/-! ### RPC payloads (uploader.ts lines 107, 156-181, 453-497, 511-513)

The operation payloads built by `uploadPreflight`, `completeUpload` and
`cleanup`, as functions of the constructor-derived configuration. -/

/-- The configuration fixed by the constructor. -/
structure UploaderConfig where
  componentId : String
  fileName : String
  fileType : String
  fileSize : Nat
  numParts : Option Nat
  deriving DecidableEq

/-- `this.componentId = this.data.id || uuidV4()` (line 107). -/
def mkComponentId (dataId : Option String) (freshUuid : String) : String :=
  jsOrString dataId freshUuid

/-- Payload of `operation.create("FileComponent", component)` in
`uploadPreflight` (lines 159-169). -/
structure FileComponentCreate where
  id : String
  name : String
  file_type : String
  size : Nat
  deriving DecidableEq

/-- The `get_upload_metadata` action of `uploadPreflight`
(lines 170-176). -/
structure GetUploadMetadataAction where
  file_name : String
  file_size : Nat
  component_id : String
  parts : Option Nat
  deriving DecidableEq

/-- The one batched RPC issued by `uploadPreflight`. -/
def uploadPreflightOps (cfg : UploaderConfig) :
    FileComponentCreate × GetUploadMetadataAction :=
  (⟨cfg.componentId, cfg.fileName, cfg.fileType, cfg.fileSize⟩,
   ⟨cfg.fileName ++ cfg.fileType, cfg.fileSize, cfg.componentId,
    cfg.numParts⟩)

/-- The `complete_multipart_upload` action of `completeUpload`
(lines 459-468); `parts` pairs each `ETag` with its `PartNumber`. -/
structure CompleteMultipartUploadAction where
  upload_id : String
  parts : List (String × Nat)
  component_id : String
  deriving DecidableEq

/-- Payload of `operation.create("ComponentLocation", ...)` in
`completeUpload` (lines 471-478). -/
structure ComponentLocationCreate where
  id : String
  component_id : String
  resource_identifier : String
  location_id : String
  deriving DecidableEq

/-- Ascending insertion by `part_number` for the uploaded-part records,
mirroring `uploadedParts.sort((a, b) => a.part_number - b.part_number)`. -/
def insertUploadedPart (x : String × Nat) :
    List (String × Nat) → List (String × Nat)
  | [] => [x]
  | y :: ys => if x.2 ≤ y.2 then x :: y :: ys else y :: insertUploadedPart x ys

def sortUploadedParts (l : List (String × Nat)) : List (String × Nat) :=
  l.foldr insertUploadedPart []

/-- The batched RPC of `completeUpload` plus the argument passed to
`onComplete`: the optional commit action (present exactly when at least
one PartResult was recorded), the `ComponentLocation` create, and the
component id handed to the completion callback (lines 453-497). -/
def completeUploadOps (cfg : UploaderConfig) (uploadId : String)
    (uploadedParts : List (String × Nat)) (locationUuid : String)
    (serverLocationId : String) :
    Option CompleteMultipartUploadAction × ComponentLocationCreate × String :=
  ((if uploadedParts.isEmpty then none
    else some ⟨uploadId, sortUploadedParts uploadedParts, cfg.componentId⟩),
   ⟨locationUuid, cfg.componentId, cfg.componentId, serverLocationId⟩,
   cfg.componentId)

/-- `Uploader.cleanup` (lines 511-513):
`session.delete("FileComponent", [this.componentId])`. -/
def cleanupDelete (cfg : UploaderConfig) : String × List String :=
  ("FileComponent", [cfg.componentId])

/-! ### Helper lemmas -/

theorem completeUpload_inflight (st : MPState) :
    (completeUpload st).inflight = st.inflight := rfl

theorem completeUpload_componentId (st : MPState) :
    (completeUpload st).componentId = st.componentId := rfl

theorem removeConnection_length_le (pn : Nat) (l : List (Nat × Nat)) :
    (removeConnection pn l).length ≤ l.length :=
  List.length_filter_le _ _

theorem uploadNextChunkF_inflight_le (fuel : Nat) :
    ∀ (r : Nat) (st : MPState),
      st.inflight.length ≤ maxConcurrentConnections →
      (uploadNextChunkF fuel r st).inflight.length ≤ maxConcurrentConnections := by
  induction fuel with
  | zero =>
      intro r st h
      rw [uploadNextChunkF]
      split
      · exact h
      · split
        · rw [completeUpload_inflight]; exact h
        · exact h
  | succ n ih =>
      intro r st h
      rw [uploadNextChunkF]
      split
      · exact h
      · next hlt =>
        split
        · split
          · rw [completeUpload_inflight]; exact h
          · exact h
        · next pn rest heq =>
          apply ih
          simp only [List.length_cons]
          have h1 : (removeConnection pn st.inflight).length ≤ st.inflight.length :=
            removeConnection_length_le pn st.inflight
          have h2 : ¬ maxConcurrentConnections ≤ st.inflight.length := hlt
          simp only [maxConcurrentConnections] at h2 ⊢
          omega

theorem uploadNextChunkF_componentId (fuel : Nat) :
    ∀ (r : Nat) (st : MPState),
      (uploadNextChunkF fuel r st).componentId = st.componentId := by
  induction fuel with
  | zero =>
      intro r st
      rw [uploadNextChunkF]
      split
      · rfl
      · split <;> rfl
  | succ n ih =>
      intro r st
      rw [uploadNextChunkF]
      split
      · rfl
      · split
        · split <;> rfl
        · rw [ih]

theorem settleAborted_inflight (l : List (Nat × Nat)) :
    ∀ st : MPState, (settleAborted st l).inflight = st.inflight := by
  induction l with
  | nil => intro st; rfl
  | cons p ps ih =>
      intro st
      simp only [settleAborted, List.foldl_cons] at *
      split <;> exact ih _

theorem settleAborted_componentId (l : List (Nat × Nat)) :
    ∀ st : MPState, (settleAborted st l).componentId = st.componentId := by
  induction l with
  | nil => intro st; rfl
  | cons p ps ih =>
      intro st
      simp only [settleAborted, List.foldl_cons] at *
      split <;> exact ih _

theorem settleAborted_retryAll (l : List (Nat × Nat)) :
    ∀ st : MPState, (∀ p ∈ l, p.2 ≤ 6) →
      settleAborted st l =
        { st with timers := st.timers ++ l.map (fun p => (p.1, p.2 + 1)) } := by
  induction l with
  | nil =>
      intro st _
      simp [settleAborted]
  | cons p ps ih =>
      intro st h
      have hp : p.2 ≤ 6 := h p (List.mem_cons_self p ps)
      have hps : ∀ q ∈ ps, q.2 ≤ 6 := fun q hq => h q (List.mem_cons_of_mem p hq)
      simp only [settleAborted, List.foldl_cons, if_pos hp] at *
      rw [ih _ hps]
      simp

theorem stepEvent_inflight_le (e : MPEvent) (st : MPState)
    (h : st.inflight.length ≤ maxConcurrentConnections) :
    (stepEvent e st).inflight.length ≤ maxConcurrentConnections := by
  cases e with
  | chunkSucceeded pn =>
      cases hl : st.inflight.lookup pn with
      | none => simpa only [stepEvent, hl] using h
      | some r =>
          simp only [stepEvent, hl]
          exact uploadNextChunkF_inflight_le _ _ _
            (le_trans (removeConnection_length_le pn st.inflight) h)
  | chunkFailed pn ok =>
      cases hl : st.inflight.lookup pn with
      | none => simpa only [stepEvent, hl] using h
      | some r =>
          by_cases hr : r ≤ 6
          · simp only [stepEvent, hl, if_pos hr]
            exact le_trans (removeConnection_length_le pn st.inflight) h
          · simp only [stepEvent, hl, if_neg hr]
            simp [settleAborted_inflight, maxConcurrentConnections]
  | timerFired pn =>
      cases hl : st.timers.lookup pn with
      | none => simpa only [stepEvent, hl] using h
      | some r =>
          simp only [stepEvent, hl]
          exact uploadNextChunkF_inflight_le _ _ _ h
  | abortSignal =>
      simp only [stepEvent]
      simp [settleAborted_inflight, maxConcurrentConnections]

theorem stepEvent_componentId (e : MPEvent) (st : MPState) :
    (stepEvent e st).componentId = st.componentId := by
  cases e with
  | chunkSucceeded pn =>
      cases hl : st.inflight.lookup pn with
      | none => simp only [stepEvent, hl]
      | some r =>
          simp only [stepEvent, hl]
          exact uploadNextChunkF_componentId _ _ _
  | chunkFailed pn ok =>
      cases hl : st.inflight.lookup pn with
      | none => simp only [stepEvent, hl]
      | some r =>
          by_cases hr : r ≤ 6
          · simp only [stepEvent, hl, if_pos hr]
          · simp only [stepEvent, hl, if_neg hr]
            simp [settleAborted_componentId]
  | timerFired pn =>
      cases hl : st.timers.lookup pn with
      | none => simp only [stepEvent, hl]
      | some r =>
          simp only [stepEvent, hl]
          exact uploadNextChunkF_componentId _ _ _
  | abortSignal =>
      simp only [stepEvent]
      simp [settleAborted_componentId]

theorem foldl_stepEvent_inflight_le (events : List MPEvent) :
    ∀ st : MPState, st.inflight.length ≤ maxConcurrentConnections →
      (events.foldl (fun s e => stepEvent e s) st).inflight.length
        ≤ maxConcurrentConnections := by
  induction events with
  | nil => intro st h; exact h
  | cons e es ih =>
      intro st h
      exact ih _ (stepEvent_inflight_le e st h)

theorem governPart_retry_general (k : Nat) :
    ∀ r : Nat, k + r ≤ 7 →
      governPart (List.replicate k false ++ [true]) r =
        ⟨(List.range k).map (fun i => 2 ^ (r + i + 1) * 100), 1, k, k + 1,
          0, 0⟩ := by
  induction k with
  | zero =>
      intro r _
      simp [governPart]
  | succ k ih =>
      intro r hk
      have hr : r ≤ 6 := by omega
      rw [List.replicate_succ, List.cons_append]
      simp only [governPart, if_pos hr]
      rw [ih (r + 1) (by omega)]
      simp only [PartTrace.mk.injEq, and_true, true_and]
      rw [List.range_succ_eq_map, List.map_cons, List.map_map]
      simp only [Nat.add_zero]
      refine congrArg (fun l => 2 ^ (r + 1) * 100 :: l) ?_
      apply List.map_congr_left
      intro i _
      simp only [Function.comp_apply]
      have he : r + 1 + i + 1 = r + Nat.succ i + 1 := by omega
      rw [he]

theorem jsRound_formula_le_100 (A fileSize : Nat) (h : 0 < fileSize) :
    jsRound (min A fileSize * 100) fileSize ≤ 100 := by
  have hs : min A fileSize ≤ fileSize := Nat.min_le_right _ _
  unfold jsRound
  have h2 : 0 < 2 * fileSize := by omega
  rw [← Nat.lt_succ_iff, Nat.div_lt_iff_lt_mul h2]
  have h3 : min A fileSize * 100 ≤ fileSize * 100 :=
    Nat.mul_le_mul_right 100 hs
  omega

theorem jsCeilDiv_spec (S c m : Nat) (hc : 0 < c)
    (hm : m = jsCeilDiv S c) (h3 : 3 ≤ m) :
    S ≤ c * m ∧ c * (m - 1) < S := by
  have hdm := Nat.div_add_mod (S + c - 1) c
  have hmod : (S + c - 1) % c < c := Nat.mod_lt _ hc
  have hq : jsCeilDiv S c = (S + c - 1) / c := rfl
  rw [hq] at hm
  subst hm
  have hmul : c * ((S + c - 1) / c) = c * ((S + c - 1) / c - 1) + c := by
    have h1 : 1 ≤ (S + c - 1) / c := by omega
    have h2 : (S + c - 1) / c - 1 + 1 = (S + c - 1) / c := by omega
    calc c * ((S + c - 1) / c) = c * ((S + c - 1) / c - 1 + 1) := by rw [h2]
      _ = c * ((S + c - 1) / c - 1) + c := by rw [Nat.mul_succ]
  have hcq : c ≤ c * ((S + c - 1) / c) :=
    Nat.le_mul_of_pos_right c (by omega)
  generalize hA : c * ((S + c - 1) / c) = A at hdm hmul hcq ⊢
  generalize hB : c * ((S + c - 1) / c - 1) = B at hmul ⊢
  omega

/-! ### Claim theorems -/

/-- Claim C1, counterexample: the percentage reported by
`handleChunkProgress` is computed with `Math.round`, not `floor`, and is
not clamped.  With declared size 200 and a single progress event of 199
bytes on a not-yet-committed part, the handler reports 100 although
`floor(min(committed + Σ in-flight, declaredSize) / declaredSize * 100)`
is 99 and no part has committed — so the reported value differs from the
claimed formula and reaches 100 before completion. -/
theorem c1_floor_counterexample :
    (handleChunkProgress 200 0 .progress 199 ⟨[], 0⟩).2 = 100
  ∧ (handleChunkProgress 200 0 .progress 199 ⟨[], 0⟩).1.uploadedSize = 0
  ∧ min ((handleChunkProgress 200 0 .progress 199 ⟨[], 0⟩).1.uploadedSize
        + cacheSum (handleChunkProgress 200 0 .progress 199 ⟨[], 0⟩).1.progressCache)
        200 * 100 / 200 = 99
  ∧ (100 : Nat) ≠ 99 := by decide

/-- Claim C1, amended: the percentage reported to `onProgress` by
`handleChunkProgress` equals
`round(min(committed + Σ in-flight, declaredSize) / declaredSize * 100)`
(JavaScript `Math.round`, half away from zero) computed over the updated
byte counters, and never exceeds 100; no clamping against regression is
applied and the value can reach 100 before every part has committed. -/
theorem c1_percentage_round (fileSize partKey : Nat) (ty : ChunkEventType)
    (loaded : Nat) (st : ProgressState) (h : 0 < fileSize) :
    (handleChunkProgress fileSize partKey ty loaded st).2
      = jsRound
          (min
            ((handleChunkProgress fileSize partKey ty loaded st).1.uploadedSize
              + cacheSum
                  (handleChunkProgress fileSize partKey ty loaded st).1.progressCache)
            fileSize * 100)
          fileSize
  ∧ (handleChunkProgress fileSize partKey ty loaded st).2 ≤ 100 := by
  refine ⟨rfl, ?_⟩
  exact jsRound_formula_le_100 _ _ h

/-- Witness for C1 at declared size 200 and a 199-byte progress event. -/
theorem c1_percentage_round_witness :
    0 < 200
  ∧ (handleChunkProgress 200 0 .progress 199 ⟨[], 0⟩).2 ≤ 100 :=
  ⟨by decide, (c1_percentage_round 200 0 .progress 199 ⟨[], 0⟩ (by decide)).2⟩

/-- Claim C2: for every part whose upload attempt fails with attempt
count ≤ 6 — the `i`-th failure, `i + 1 ≤ 6 ≤ k`, sees delay
`2 ^ (i + 1) * 100` ms, i.e. `2 ^ attempt * 100` for the 1-based attempt
count — the retry governor re-enqueues the same part descriptor (once
per failure) and resumes the drive step; a part failing `k ≤ 6` times
before succeeding yields exactly one PartResult and never hits the fatal
branch. -/
theorem c2_retry_backoff (k : Nat) (hk : k ≤ 6) :
    governPart (List.replicate k false ++ [true]) 0 =
      ⟨(List.range k).map (fun i => 2 ^ (i + 1) * 100), 1, k, k + 1, 0, 0⟩ := by
  have h := governPart_retry_general k 0 (by omega)
  rw [h]
  simp

/-- Witness for C2 with two failures before the success. -/
theorem c2_retry_backoff_witness :
    2 ≤ 6
  ∧ governPart (List.replicate 2 false ++ [true]) 0 =
      ⟨[200, 400], 1, 2, 3, 0, 0⟩ := by
  refine ⟨by decide, ?_⟩
  rw [c2_retry_backoff 2 (by decide)]
  rfl

/-- Claim C3, counterexample: a part that fails seven times and then
succeeds has an attempt count exceeding 6, yet the governor schedules a
seventh retry instead of aborting: no cleanup delete is issued, no error
callback fires, and the part still commits one PartResult — the session
does not abort when the attempt count exceeds 6. -/
theorem c3_over_six_attempts_counterexample :
    governPart (List.replicate 7 false ++ [true]) 0 =
      ⟨[200, 400, 800, 1600, 3200, 6400, 12800], 1, 7, 8, 0, 0⟩
  ∧ (governPart (List.replicate 7 false ++ [true]) 0).fatalCleanups = 0
  ∧ (governPart (List.replicate 7 false ++ [true]) 0).fatalErrors = 0
  ∧ (governPart (List.replicate 7 false ++ [true]) 0).commits = 1 := by decide

/-- Claim C3, amended: the fatal branch fires when a part's failure
count exceeds 7 (its 8th failed attempt, when the `retry` counter has
reached 7): the governor then stops retrying (exactly 7 delays were
scheduled), issues one cleanup delete and one error callback with the
original error; at the session level the fatal transition aborts every
in-flight connection (whose per-part handlers reschedule them for
retry), and increments the cleanup-delete and error-callback counters by
exactly one each, for either outcome of the cleanup delete.  Each part
reaching the threshold triggers its own cleanup delete and error
callback. -/
theorem c3_fatal_exhaustion :
    (∀ k, 8 ≤ k →
        governPart (List.replicate k false) 0 =
          ⟨[200, 400, 800, 1600, 3200, 6400, 12800], 0, 7, 7, 1, 1⟩)
  ∧ (∀ (st : MPState) (pn r : Nat) (cleanupOk : Bool),
        st.inflight.lookup pn = some r → 6 < r →
        (∀ p ∈ removeConnection pn st.inflight, p.2 ≤ 6) →
          (stepEvent (.chunkFailed pn cleanupOk) st).inflight = []
        ∧ (stepEvent (.chunkFailed pn cleanupOk) st).cleanupCalls
            = st.cleanupCalls + 1
        ∧ (stepEvent (.chunkFailed pn cleanupOk) st).onErrorCalls
            = st.onErrorCalls + 1
        ∧ (stepEvent (.chunkFailed pn cleanupOk) st).timers
            = st.timers
              ++ (removeConnection pn st.inflight).map
                  (fun p => (p.1, p.2 + 1))) := by
  constructor
  · intro k hk
    obtain ⟨m, rfl⟩ : ∃ m, k = 8 + m := ⟨k - 8, by omega⟩
    rw [List.replicate_add]
    rfl
  · intro st pn r cleanupOk h1 h2 h3
    have key : stepEvent (.chunkFailed pn cleanupOk) st =
        { st with
          inflight := []
          timers := st.timers
            ++ (removeConnection pn st.inflight).map (fun p => (p.1, p.2 + 1))
          cleanupCalls := st.cleanupCalls + 1
          onErrorCalls := st.onErrorCalls + 1 } := by
      simp only [stepEvent, h1, if_neg (by omega : ¬ r ≤ 6)]
      rw [settleAborted_retryAll _ _ h3]
    rw [key]
    exact ⟨rfl, rfl, rfl, rfl⟩

/-- Witness for C3 with eight straight failures and a one-connection
fatal step. -/
theorem c3_fatal_exhaustion_witness :
    governPart (List.replicate 8 false) 0 =
      ⟨[200, 400, 800, 1600, 3200, 6400, 12800], 0, 7, 7, 1, 1⟩
  ∧ (stepEvent (.chunkFailed 5 true)
        ⟨[], [(5, 7)], [], [], [], 0, 0, 0, 0, "cid"⟩).cleanupCalls = 0 + 1
  ∧ (stepEvent (.chunkFailed 5 true)
        ⟨[], [(5, 7)], [], [], [], 0, 0, 0, 0, "cid"⟩).onErrorCalls = 0 + 1 := by
  refine ⟨c3_fatal_exhaustion.1 8 (by decide), ?_, ?_⟩
  · exact (c3_fatal_exhaustion.2 ⟨[], [(5, 7)], [], [], [], 0, 0, 0, 0, "cid"⟩
      5 7 true rfl (by decide)
      (by intro p hp; simp [removeConnection] at hp)).2.1
  · exact (c3_fatal_exhaustion.2 ⟨[], [(5, 7)], [], [], [], 0, 0, 0, 0, "cid"⟩
      5 7 true rfl (by decide)
      (by intro p hp; simp [removeConnection] at hp)).2.2.1

/-- Claim C4: in every session state reachable from the start of a
multi-part session under any sequence of completion, failure, timer and
abort events, the active-connection registry holds at most
`maxConcurrentConnections = 6` entries; the drive step re-enters itself
only below the ceiling and every other transition only removes
connections. -/
theorem c4_concurrency_bound (componentId : String) (urls : List Nat)
    (events : List MPEvent) :
    (runSession componentId urls events).inflight.length
      ≤ maxConcurrentConnections
  ∧ maxConcurrentConnections = 6 := by
  refine ⟨?_, rfl⟩
  simp only [runSession, startSession, uploadNextChunk]
  apply foldl_stepEvent_inflight_le
  apply uploadNextChunkF_inflight_le
  simp [initMPState, maxConcurrentConnections]

/-- Claim C5: the attempt succeeds exactly on status 200 with the
fingerprint header present (and the fingerprint is unquoted before being
recorded); network error, timeout and abort reject the promise; but a
cleanly delivered HTTP response with status ≠ 200, or with status 200
and a missing fingerprint header, settles nothing — the attempt
terminates without recording a PartResult or signalling a failure, and
its connection stays registered — contradicting the claim that every
other case fails with `ChunkUploadFailed` (the `status !== 200` check in
`uploadChunk` is unreachable). -/
theorem c5_chunk_settlement_bug :
    uploadChunkResult (.response 200 (some "\"abc\"")) = .success "abc"
  ∧ uploadChunkResult (.response 403 none) = .unsettled
  ∧ uploadChunkResult (.response 200 none) = .unsettled
  ∧ (uploadFileChunkOutcome (.response 403 none)).2 = false
  ∧ (uploadFileChunkOutcome (.response 200 none)).2 = false
  ∧ uploadChunkResult .netError = .failure "Upload chunk error"
  ∧ uploadChunkResult .timeout = .failure "Upload chunk timeout timeout"
  ∧ uploadChunkResult .abortedConn
      = .failure "Upload canceled by user or system" := by decide

/-- Claim C6: in a multi-part session with three in-flight connections,
an abort (explicit call or abort-signal listener) empties the
active-connection registry, but the per-part catch handlers treat the
aborts as retryable failures and schedule all three parts for a
back-off retry; `onAborted` never fires, no cleanup delete is issued,
and no error callback (hence no `UPLOAD_ABORTED`) occurs — contradicting
the claim that the destination resource is deleted and `onAborted` then
`onError("UPLOAD_ABORTED")` each fire exactly once. -/
theorem c6_multipart_abort_bug :
    (stepEvent .abortSignal (startSession "component-a" [1, 2, 3])).onAbortedCalls = 0
  ∧ (stepEvent .abortSignal (startSession "component-a" [1, 2, 3])).cleanupCalls = 0
  ∧ (stepEvent .abortSignal (startSession "component-a" [1, 2, 3])).onErrorCalls = 0
  ∧ (stepEvent .abortSignal (startSession "component-a" [1, 2, 3])).inflight = []
  ∧ (stepEvent .abortSignal (startSession "component-a" [1, 2, 3])).timers
      = [(1, 1), (2, 1), (3, 1)] := by decide

/-- Claim C7: in a three-part session where parts 1 and 2 succeed while
part 3 sits in its back-off window, the drive step sees an empty backlog
and an empty registry and calls `completeUpload` with the two-entry
manifest `[1, 2]` — shorter than the part count 3 — and calls it again
after part 3 finally commits, so two commit RPCs are submitted and the
completion callback fires twice. -/
theorem c7_premature_completion_bug :
    (runSession "component-b" [1, 2, 3]
      [.chunkFailed 3 true, .chunkSucceeded 1, .chunkSucceeded 2,
        .timerFired 3, .chunkSucceeded 3]).commits = [[1, 2], [1, 2, 3]]
  ∧ (runSession "component-b" [1, 2, 3]
      [.chunkFailed 3 true, .chunkSucceeded 1, .chunkSucceeded 2,
        .timerFired 3, .chunkSucceeded 3]).onCompleteCalls = 2
  ∧ ¬ ([1, 2] : List Nat).length = 3 := by decide

/-- Claim C8: with a positive chunk size, the legacy `options.xhr`
handle forces the single-part strategy and logs the compatibility
warning; otherwise the plan is single-part exactly when
`ceil(size / chunkSize) ≤ 2` and multi-part with that exact part count
otherwise; any multi-part count `m` satisfies the ceiling
characterisation `size ≤ chunkSize * m` and
`chunkSize * (m - 1) < size` together with `m > 2`. -/
theorem c8_strategy_selection (S c : Nat) (x : Bool) (hc : 0 < c) :
    (makePlan S c x).warned = x
  ∧ (x = true → (makePlan S c x).numParts = none)
  ∧ (x = false →
        (((makePlan S c x).numParts = none) ↔ jsCeilDiv S c ≤ 2)
      ∧ (2 < jsCeilDiv S c →
          (makePlan S c x).numParts = some (jsCeilDiv S c)))
  ∧ (∀ m, (makePlan S c x).numParts = some m →
        m = jsCeilDiv S c ∧ S ≤ c * m ∧ c * (m - 1) < S ∧ 2 < m) := by
  cases x with
  | true =>
      refine ⟨rfl, fun _ => rfl, ?_, ?_⟩
      · intro hx
        exact absurd hx (by decide)
      · intro m hm
        simp [makePlan] at hm
  | false =>
      refine ⟨rfl, ?_, ?_, ?_⟩
      · intro hx
        exact absurd hx (by decide)
      · intro _
        by_cases h2 : jsCeilDiv S c ≤ 2
        · refine ⟨⟨fun _ => h2, fun _ => ?_⟩, fun hlt => absurd h2 (by omega)⟩
          simp [makePlan, if_pos h2]
        · constructor
          · constructor
            · intro hnone
              simp [makePlan, if_neg h2] at hnone
            · intro hle
              exact absurd hle h2
          · intro _
            simp [makePlan, if_neg h2]
      · intro m hm
        by_cases h2 : jsCeilDiv S c ≤ 2
        · simp [makePlan, if_pos h2] at hm
        · simp only [makePlan, if_neg h2] at hm
          have hmeq : m = jsCeilDiv S c := by
            simp at hm
            omega
          have h2lt : 2 < m := by
            rw [hmeq]
            exact Nat.not_le.mp h2
          obtain ⟨hle, hlt⟩ := jsCeilDiv_spec S c m hc hmeq h2lt
          exact ⟨hmeq, hle, hlt, h2lt⟩

/-- Witness for C8 at size 7, chunk size 2, no legacy handle: four
parts. -/
theorem c8_strategy_selection_witness :
    0 < 2 ∧ (7 ≤ 2 * 4 ∧ 2 * (4 - 1) < 7 ∧ 2 < 4) := by
  refine ⟨by decide, ?_⟩
  have h := (c8_strategy_selection 7 2 false (by decide)).2.2.2 4 (by decide)
  exact ⟨h.2.1, h.2.2.1, h.2.2.2⟩

/-- Claim C9: when connectivity is known down, `uploadFileChunk` rejects
the attempt promise before opening the connection, but — the offline
check lacking an early return — it still registers a fresh connection in
`activeConnections`, re-enters the drive step and sends the request,
contradicting the claim that no connection is opened, registered or
sent. -/
theorem c9_offline_send_bug :
    uploadFileChunkStart false =
      { earlyReject := some "System is offline", registered := true,
        driveReentered := true, sent := true }
  ∧ (uploadFileChunkStart false).registered = true
  ∧ (uploadFileChunkStart false).sent = true := by decide

/-- Claim C10: the component id chosen in the constructor
(`data.id` when truthy, else the fresh UUID) is used verbatim as the
`FileComponent` id and the `component_id` of the preflight metadata
request, the `component_id` of the commit action, the `component_id` and
`resource_identifier` of the created `ComponentLocation`, the argument
of the completion callback, and the key list of the cleanup delete; and
no session transition ever changes the stored component id. -/
theorem c10_component_id_threading
    (dataId : Option String) (freshUuid fileName fileType : String)
    (fileSize : Nat) (numParts : Option Nat) (uploadId : String)
    (uploadedParts : List (String × Nat))
    (locationUuid serverLocationId : String)
    (e : MPEvent) (st : MPState) :
    (uploadPreflightOps ⟨mkComponentId dataId freshUuid, fileName, fileType,
        fileSize, numParts⟩).1.id = mkComponentId dataId freshUuid
  ∧ (uploadPreflightOps ⟨mkComponentId dataId freshUuid, fileName, fileType,
        fileSize, numParts⟩).2.component_id = mkComponentId dataId freshUuid
  ∧ ((completeUploadOps ⟨mkComponentId dataId freshUuid, fileName, fileType,
        fileSize, numParts⟩ uploadId uploadedParts locationUuid
        serverLocationId).1.map (fun a => a.component_id)
      = (completeUploadOps ⟨mkComponentId dataId freshUuid, fileName, fileType,
          fileSize, numParts⟩ uploadId uploadedParts locationUuid
          serverLocationId).1.map (fun _ => mkComponentId dataId freshUuid))
  ∧ (completeUploadOps ⟨mkComponentId dataId freshUuid, fileName, fileType,
        fileSize, numParts⟩ uploadId uploadedParts locationUuid
        serverLocationId).2.1.component_id = mkComponentId dataId freshUuid
  ∧ (completeUploadOps ⟨mkComponentId dataId freshUuid, fileName, fileType,
        fileSize, numParts⟩ uploadId uploadedParts locationUuid
        serverLocationId).2.1.resource_identifier
      = mkComponentId dataId freshUuid
  ∧ (completeUploadOps ⟨mkComponentId dataId freshUuid, fileName, fileType,
        fileSize, numParts⟩ uploadId uploadedParts locationUuid
        serverLocationId).2.2 = mkComponentId dataId freshUuid
  ∧ cleanupDelete ⟨mkComponentId dataId freshUuid, fileName, fileType,
        fileSize, numParts⟩
      = ("FileComponent", [mkComponentId dataId freshUuid])
  ∧ (stepEvent e st).componentId = st.componentId := by
  refine ⟨rfl, rfl, ?_, rfl, rfl, rfl, rfl, stepEvent_componentId e st⟩
  simp only [completeUploadOps]
  split <;> rfl

end Uploader
